import Mathlib

/-
Verification of the worker core: the workflow task manager
(`core/src/workflow/workflow_tasks/mod.rs`) and the activity task pipeline
(`core/src/worker/activities.rs`).

The embedding is a shallow one.  Pure decision logic is translated function
by function from the Rust source.  Stateful collaborators that live outside
the two translated files (the workflow concurrency manager, the
pending-activation queue, the cache manager, the metered semaphore and the
heartbeat manager) are modelled from the specification, restricted to the
state a single run (respectively the activity worker) can observe.  Machine
integers are Nat; instants and durations are Nat tick counts (nanoseconds
for durations).
-/

namespace SdkCore

/-- Decidable equality for `Except`, used by the derived instances below. -/
instance exceptDecEq {e a : Type} [DecidableEq e] [DecidableEq a] :
    DecidableEq (Except e a) := fun x y =>
  match x, y with
  | Except.error u, Except.error v =>
    if h : u = v then isTrue (by rw [h]) else isFalse (by intro hh; cases hh; exact h rfl)
  | Except.ok u, Except.ok v =>
    if h : u = v then isTrue (by rw [h]) else isFalse (by intro hh; cases hh; exact h rfl)
  | Except.error _, Except.ok _ => isFalse (by intro hh; cases hh)
  | Except.ok _, Except.error _ => isFalse (by intro hh; cases hh)

/-! ## Workflow task manager: data model -/

/-- The id reserved for legacy queries.  The constant `LEGACY_QUERY_ID` is
declared in `workflow/mod.rs` (outside the provided sources); the spec fixes
it as a stable, opaque string literal. -/
def LEGACY_QUERY_ID : String := "legacy_query"

/-- A query response produced by lang (`QueryResult` in the protos).  Only the
`query_id` is inspected by the manager; the rest of the message is opaque. -/
structure QueryResult where
  query_id : String
  payload : Nat
deriving DecidableEq

/-- A reply command from lang (`WFCommand`).  `successful_activation` only
distinguishes query responses from commands that affect the machines, so all
machine-affecting variants are collapsed into the opaque `MachineCmd`. -/
inductive WFCommand where
  | QueryResponse (qr : QueryResult)
  | MachineCmd (c : Nat)
deriving DecidableEq

/-- `WorkflowTaskInfo`: the data memorized about a WFT while lang handles it.
The task token is an opaque byte sequence, modelled as a Nat. -/
structure WorkflowTaskInfo where
  task_token : Nat
  attempt : Nat
deriving DecidableEq

/-- `OutstandingTask`.  Pending queries are opaque `QueryWorkflow` messages,
modelled as Nats; `start_time` is an opaque instant. -/
structure OutstandingTask where
  info : WorkflowTaskInfo
  pending_queries : List Nat
  start_time : Nat
deriving DecidableEq

/-- `OutstandingActivation`. -/
inductive OutstandingActivation where
  | Normal (contains_eviction : Bool) (num_jobs : Nat)
  | LegacyQuery
deriving DecidableEq

/-- `OutstandingActivation::has_only_eviction`: a normal activation carrying
an eviction whose job count is exactly one. -/
def OutstandingActivation.has_only_eviction : OutstandingActivation → Bool
  | OutstandingActivation.Normal true nj => nj == 1
  | _ => false

/-- `OutstandingActivation::has_eviction`. -/
def OutstandingActivation.has_eviction : OutstandingActivation → Bool
  | OutstandingActivation.Normal ce _ => ce
  | OutstandingActivation.LegacyQuery => false

/-- `EvictionReason` (the subset used by the translated code). -/
inductive EvictionReason where
  | CacheFull
  | Fatal
  | Unspecified
deriving DecidableEq

/-- `WFMachinesError` restricted to what the translated code constructs. -/
inductive WFMachinesError where
  | Fatal (msg : String)
  | Nondeterminism (msg : String)
deriving DecidableEq

/-- `WorkflowUpdateError`. -/
structure WorkflowUpdateError where
  source : WFMachinesError
  run_id : String
deriving DecidableEq

/-- `EvictionRequestResult`. -/
inductive EvictionRequestResult where
  | EvictionRequested (attempt : Option Nat)
  | NotFound
  | EvictionAlreadyRequested (attempt : Option Nat)
deriving DecidableEq

/-- `ActivationAction`.  Proto commands going to the server are opaque Nats. -/
inductive ActivationAction where
  | WftComplete (commands : List Nat) (query_responses : List QueryResult)
      (force_new_wft : Bool)
  | RespondLegacyQuery (result : QueryResult)
deriving DecidableEq

/-- `ServerCommandsWithWorkflowInfo`. -/
structure ServerCommandsWithWorkflowInfo where
  task_token : Nat
  action : ActivationAction
deriving DecidableEq

/-- The data `wfm.get_server_commands()` returns: outgoing proto commands and
whether the machines report they are still replaying. -/
structure OutgoingServerCommands where
  commands : List Nat
  replaying : Bool
deriving DecidableEq

/-- Modelled from the spec: the read-back of one machines interaction inside
`successful_activation` (the `WorkflowManager` itself is an external
collaborator, out of scope).  `pend_if_applied` is the value
`apply_next_task_if_ready` would report if invoked; the embedding decides
whether it is invoked, exactly as the source does. -/
structure MachineUpdate where
  pend_if_applied : Bool
  server_cmds : OutgoingServerCommands
  local_activities : List Nat
  wft_timeout : Nat
deriving DecidableEq

/-- Modelled from the spec: the behaviour of the run's machines during one
`successful_activation` call.  `update_result` is the outcome of the
`machine_mut!` closure (push commands, optionally apply the next buffered
task, read back commands and the WFT timeout); `local_result_err` and
`local_result_important` describe feeding immediate local-activity
resolutions back via `notify_of_local_result`; `must_heartbeat` is the
outcome of `wait_for_local_acts_or_heartbeat` (a real-time wait, opaque
here). -/
structure MachineOracle where
  update_result : Except WFMachinesError MachineUpdate
  local_result_err : Option WFMachinesError
  local_result_important : Bool
  must_heartbeat : Bool
deriving DecidableEq

/-- Modelled from the spec: one run's entry inside the
`WorkflowConcurrencyManager` - its `WorkflowManager` (represented by the
oracle above), the optional outstanding task and activation, and the single
buffered poll response slot.  `wft_finished` records whether the machines
report the WFT logically finished, which drives `complete_wft`. -/
structure RunEntry where
  task : Option OutstandingTask
  activation : Option OutstandingActivation
  buffered_poll : Option Nat
  wft_finished : Bool
  oracle : MachineOracle
deriving DecidableEq

/-- A pulse on the pending-activations notifier: `notify_one` wakes a single
waiter, `notify_waiters` is a broadcast. -/
inductive Pulse where
  | one
  | waiters
deriving DecidableEq

/-- The `WorkflowTaskManager` state as observable for one fixed run.
Collaborators that live outside the translated file are modelled from the
spec:

* `pending_plain` / `pending_eviction` model this run's entry in the
  `PendingActivations` queue (a plain entry exists, and the entry's
  `needs_eviction` field); an entry exists iff either is set.
* `in_cache` and `cache_insert_evicts` model the `WorkflowCacheManager`:
  inserting a run already present touches it and returns `none`; inserting a
  new run returns the run id the cache chose to evict, which under the
  non-sticky policy may be this very run (`run_id`).
* `other_run_accepts_eviction` says whether the run id named by
  `cache_insert_evicts` (when it is a different run) is present in the
  concurrency manager without an eviction-bearing activation, so that
  `request_eviction` on it enqueues a notice and pulses the notifier.
* `pending_query_acts` counts query-only activations pushed onto the global
  `pending_queries` queue for this run; `ready_buffered` is the
  `ready_buffered_wft` queue; `pulses` logs notifier pulses in order. -/
structure WTMState where
  run_id : String
  run : Option RunEntry
  pending_plain : Bool
  pending_eviction : Option EvictionReason
  in_cache : Bool
  cache_insert_evicts : Option String
  other_run_accepts_eviction : Bool
  pending_query_acts : Nat
  ready_buffered : List Nat
  pulses : List Pulse
deriving DecidableEq

/-! ## Workflow task manager: operations -/

/-- Modelled from the spec: `PendingActivations::has_pending` - an entry for
the run exists (plain or eviction-tagged). -/
def has_pending (st : WTMState) : Bool :=
  st.pending_plain || st.pending_eviction.isSome

/-- `WorkflowConcurrencyManager::get_activation` for the fixed run. -/
def get_activation (st : WTMState) : Option OutstandingActivation :=
  st.run.bind (fun re => re.activation)

/-- `WorkflowConcurrencyManager::get_task` for the fixed run. -/
def get_task (st : WTMState) : Option OutstandingTask :=
  st.run.bind (fun re => re.task)

/-- `WorkflowConcurrencyManager::exists` for the fixed run. -/
def exists_run (st : WTMState) : Bool :=
  st.run.isSome

/-- `WorkflowTaskManager::activation_has_only_eviction`. -/
def activation_has_only_eviction (st : WTMState) : Bool :=
  ((get_activation st).map OutstandingActivation.has_only_eviction).getD false

/-- `WorkflowTaskManager::activation_has_eviction`. -/
def activation_has_eviction (st : WTMState) : Bool :=
  ((get_activation st).map OutstandingActivation.has_eviction).getD false

/-- `WorkflowTaskManager::needs_activation`: append a plain
pending-activation entry (duplicates collapse) and broadcast on the
notifier. -/
def needs_activation (st : WTMState) : WTMState :=
  { st with pending_plain := true, pulses := st.pulses ++ [Pulse.waiters] }

/-- `WorkflowTaskManager::request_eviction`.  The message argument is only
logged by the source and is dropped here.  `notify_needs_eviction` sets the
`needs_eviction` field of the run's pending entry (creating the entry if
absent) and the notifier is pulsed with a broadcast. -/
def request_eviction (st : WTMState) (reason : EvictionReason) :
    EvictionRequestResult × WTMState :=
  if exists_run st then
    let attempts := (get_task st).map (fun wt => wt.info.attempt)
    if !(activation_has_eviction st) then
      (EvictionRequestResult.EvictionRequested attempts,
        { st with pending_eviction := some reason,
                  pulses := st.pulses ++ [Pulse.waiters] })
    else
      (EvictionRequestResult.EvictionAlreadyRequested attempts, st)
  else
    (EvictionRequestResult.NotFound, st)

/-- `WorkflowTaskManager::evict_run`: drop the cache entry, destroy the run in
the concurrency manager (capturing any buffered poll), purge its pending
activations, and promote the buffered poll if there was one. -/
def evict_run (st : WTMState) : WTMState :=
  let buffered := st.run.bind (fun re => re.buffered_poll)
  let st1 := { st with in_cache := false, run := none,
                       pending_plain := false, pending_eviction := none }
  match buffered with
  | some b => { st1 with ready_buffered := st1.ready_buffered ++ [b] }
  | none => st1

/-- Modelled from the spec: `WorkflowConcurrencyManager::complete_wft` -
removes the outstanding task iff the machines report the WFT logically
finished; `reported = true` forces removal. -/
def complete_wft (st : WTMState) (reported : Bool) :
    WTMState × Option OutstandingTask :=
  match st.run with
  | none => (st, none)
  | some re =>
    match re.task with
    | none => (st, none)
    | some t =>
      if re.wft_finished || reported then
        ({ st with run := some { re with task := none } }, some t)
      else
        (st, none)

/-- `WorkflowConcurrencyManager::delete_activation` for the fixed run. -/
def delete_activation (st : WTMState) : WTMState :=
  match st.run with
  | none => st
  | some re => { st with run := some { re with activation := none } }

/-- `WorkflowTaskManager::on_activation_done`: delete the outstanding
activation and wake a single waiter (`notify_one`). -/
def on_activation_done (st : WTMState) : WTMState :=
  let st1 := delete_activation st
  { st1 with pulses := st1.pulses ++ [Pulse.one] }

/-- The cache insertion performed near the end of `after_wft_report`
(`cache_manager.lock().insert(run_id)` plus the `request_eviction` on the
returned run id and the promotion of a buffered poll response).  Inserting a
run that is already cached touches it and evicts nothing; otherwise the
cache may name a run to evict - possibly this very run under the non-sticky
policy. -/
def after_report_cache_insert (st : WTMState) : WTMState :=
  let insert_result : WTMState × Option String :=
    if st.in_cache then (st, none)
    else ({ st with in_cache := true }, st.cache_insert_evicts)
  let st1 := insert_result.1
  let st2 :=
    match insert_result.2 with
    | some evicted_run_id =>
      if evicted_run_id == st1.run_id then
        (request_eviction st1 EvictionReason.CacheFull).2
      else if st1.other_run_accepts_eviction then
        { st1 with pulses := st1.pulses ++ [Pulse.waiters] }
      else
        st1
    | none => st1
  match st2.run with
  | some re =>
    match re.buffered_poll with
    | some b =>
      { st2 with run := some { re with buffered_poll := none },
                 ready_buffered := st2.ready_buffered ++ [b] }
    | none => st2
  | none => st2

/-- `WorkflowTaskManager::after_wft_report`.  Returns `none` where the source
panics (the `expect` on a missing machine) and otherwise the new state plus
whether the WFT was marked completed internally.  The pending-queries branch
drains the task's queries into the global `pending_queries` queue,
broadcasts, and returns early. -/
def after_wft_report (st : WTMState) (reported : Bool) :
    Option (WTMState × Bool) :=
  let just_evicted := activation_has_eviction st
  let st1 := if just_evicted then evict_run st else st
  let mid : Option (WTMState × Bool) :=
    if !(has_pending st1) && !just_evicted then
      match st1.run with
      | none => none
      | some re =>
        match re.task with
        | some ot =>
          if !ot.pending_queries.isEmpty then
            some ({ st1 with
                      run := some { re with task := some { ot with pending_queries := [] } },
                      pending_query_acts :=
                        st1.pending_query_acts + ot.pending_queries.length,
                      pulses := st1.pulses ++ [Pulse.waiters] }, true)
          else
            some (after_report_cache_insert st1, false)
        | none => some (after_report_cache_insert st1, false)
    else
      some (st1, false)
  match mid with
  | none => none
  | some (st2, early) =>
    if early then
      some (st2, false)
    else
      let completed := complete_wft st2 reported
      some (on_activation_done completed.1, completed.2.isSome)

/-- The error message used when a legacy query response is mixed with other
commands. -/
def legacy_mixed_msg : String :=
  "Legacy query activation response included other commands, this is not allowed and constitutes an error in the lang SDK"

/-- The `matches!` guard at the top of the reply handling: the command list is
exactly one query response whose id is the legacy query id. -/
def isLegacyQueryResponseOnly (commands : List WFCommand) : Bool :=
  match commands with
  | [WFCommand.QueryResponse qr] => qr.query_id == LEGACY_QUERY_ID
  | _ => false

/-- The stripping loop of `successful_activation`: remove query responses
from the command list in order, failing (`none`) when a query response
carries the legacy id.  Returns the stripped query responses and the
remaining machine-affecting commands, both in their original order. -/
def stripQueryResponses :
    List WFCommand → Option (List QueryResult × List WFCommand)
  | [] => some ([], [])
  | WFCommand.QueryResponse qr :: rest =>
    if qr.query_id == LEGACY_QUERY_ID then
      none
    else
      (stripQueryResponses rest).map (fun p => (qr :: p.1, p.2))
  | WFCommand.MachineCmd c :: rest =>
    (stripQueryResponses rest).map (fun p => (p.1, WFCommand.MachineCmd c :: p.2))

/-- The non-legacy tail of `successful_activation`, entered once the reply is
known not to be a lone legacy query response.  Returns the result, the new
state, and whether the machines were updated (commands pushed / next task
applied).  Mirrors the source: strip query responses (failing fatally on a
legacy id), run the machines closure, signal `needs_activation` when more
activations are pending, feed back immediate local resolutions, then decide
whether to send the completion. -/
def successful_activation_rest (st : WTMState) (re : RunEntry)
    (entry : OutstandingTask) (activation_was_only_eviction : Bool)
    (commands : List WFCommand) :
    Except WorkflowUpdateError (Option ServerCommandsWithWorkflowInfo) ×
      WTMState × Bool :=
  let task_token := entry.info.task_token
  let has_pending_query := !entry.pending_queries.isEmpty
  match stripQueryResponses commands with
  | none =>
    (Except.error { source := WFMachinesError.Fatal legacy_mixed_msg,
                    run_id := st.run_id }, st, false)
  | some stripped =>
    let query_responses := stripped.1
    let activation_was_eviction := activation_has_eviction st
    match re.oracle.update_result with
    | Except.error e =>
      (Except.error { source := e, run_id := st.run_id }, st, true)
    | Except.ok upd =>
      let are_pending := !activation_was_eviction && upd.pend_if_applied
      let st1 := if are_pending then needs_activation st else st
      match re.oracle.local_result_err with
      | some e =>
        (Except.error { source := e, run_id := st1.run_id }, st1, true)
      | none =>
        let st2 := if re.oracle.local_result_important then needs_activation st1 else st1
        let must_heartbeat := re.oracle.must_heartbeat
        let has_query_responses := !query_responses.isEmpty
        let is_query_playback := has_pending_query && !has_query_responses
        let no_commands_and_evicting :=
          upd.server_cmds.commands.isEmpty && activation_was_only_eviction
        let to_be_sent : ServerCommandsWithWorkflowInfo :=
          { task_token := task_token,
            action := ActivationAction.WftComplete upd.server_cmds.commands
              query_responses must_heartbeat }
        let should_respond := !(has_pending st2 || upd.server_cmds.replaying
          || is_query_playback || no_commands_and_evicting)
        if should_respond || has_query_responses then
          (Except.ok (some to_be_sent), st2, true)
        else
          (Except.ok none, st2, true)

/-- `WorkflowTaskManager::successful_activation`.  Returns the reply to send
(if any), the new state, and whether the machines were updated.  Absent
outstanding task: warn (unless the activation was eviction-only) and return
`Ok(None)`.  A lone legacy query response short-circuits to
`RespondLegacyQuery` without touching the machines. -/
def successful_activation (st : WTMState) (commands : List WFCommand) :
    Except WorkflowUpdateError (Option ServerCommandsWithWorkflowInfo) ×
      WTMState × Bool :=
  let activation_was_only_eviction := activation_has_only_eviction st
  match st.run with
  | none => (Except.ok none, st, false)
  | some re =>
    match re.task with
    | none => (Except.ok none, st, false)
    | some entry =>
      match commands with
      | [WFCommand.QueryResponse qr] =>
        if qr.query_id == LEGACY_QUERY_ID then
          (Except.ok (some ⟨entry.info.task_token,
            ActivationAction.RespondLegacyQuery qr⟩), st, false)
        else
          successful_activation_rest st re entry activation_was_only_eviction
            [WFCommand.QueryResponse qr]
      | cmds =>
        successful_activation_rest st re entry activation_was_only_eviction cmds

/-- The sending condition exactly as the specification words it: send iff
there are query responses, or none of (pending activations for the run,
machines still replaying, playing back solely to service a pending query,
eviction-only activation with no commands) hold. -/
def spec_should_send (pending replaying query_playback
    eviction_only_no_commands has_query_responses : Bool) : Bool :=
  has_query_responses ||
    !(pending || replaying || query_playback || eviction_only_no_commands)

/-- The pending-activation status of the run at the moment
`successful_activation` takes its sending decision: an entry existed before
the call, or the machines reported more activations pending (only checked
when the completed activation was not eviction-bearing), or an immediate
local-activity resolution was important. -/
def pending_at_decision (st : WTMState) (re : RunEntry) (upd : MachineUpdate) : Bool :=
  has_pending st || (!(activation_has_eviction st) && upd.pend_if_applied)
    || re.oracle.local_result_important

/-- The predicate for the early-return branch of `after_wft_report`: no
eviction in the outstanding activation, no pending activations, and the
outstanding task still has pending queries. -/
def takes_query_early_return (st : WTMState) : Bool :=
  !(activation_has_eviction st) && !(has_pending st) &&
    (match get_task st with
     | some ot => !ot.pending_queries.isEmpty
     | none => false)

/-! ## Worker activity tasks: data model -/

/-- A `prost_types::Duration`: signed seconds and nanos. -/
structure ProstDuration where
  seconds : Int
  nanos : Int
deriving DecidableEq

/-- Conversion of a prost duration to a std duration in nanoseconds
(`try_into`), which fails on negative components. -/
def prost_to_std (d : ProstDuration) : Option Nat :=
  if 0 ≤ d.seconds ∧ 0 ≤ d.nanos then
    some (d.seconds.toNat * 1000000000 + d.nanos.toNat)
  else
    none

/-- `Duration::mul_f64(0.8)` on a nanosecond count.  The source multiplies by
the floating-point literal 0.8; the embedding uses the exact rational 8/10
with floor division, which agrees on the branch structure the claims are
about. -/
def mul_f64_08 (n : Nat) : Nat :=
  n * 8 / 10

/-- `InFlightActInfo`. -/
structure InFlightActInfo where
  activity_type : String
  workflow_type : String
  start_time : Nat
deriving DecidableEq

/-- `RemoteInFlightActInfo`. -/
structure RemoteInFlightActInfo where
  base : InFlightActInfo
  heartbeat_timeout : Option ProstDuration
  issued_cancel_to_lang : Bool
  known_not_found : Bool
deriving DecidableEq

/-- `RemoteInFlightActInfo::new`; `now` stands for `Instant::now()`. -/
def RemoteInFlightActInfo.new (activity_type workflow_type : String)
    (heartbeat_timeout : Option ProstDuration) (now : Nat) :
    RemoteInFlightActInfo :=
  { base := { activity_type := activity_type, workflow_type := workflow_type,
              start_time := now },
    heartbeat_timeout := heartbeat_timeout,
    issued_cancel_to_lang := false,
    known_not_found := false }

/-- `ActivityCancelReason`. -/
inductive ActivityCancelReason where
  | NotFound
  | Cancelled
  | TimedOut
deriving DecidableEq

/-- `ActivityHeartbeatError` (the variants raised by `record_heartbeat`). -/
inductive ActivityHeartbeatError where
  | UnknownActivity
  | InvalidHeartbeatTimeout
deriving DecidableEq

/-- A tonic status code as observed by `complete`: `NotFound` or anything
else. -/
inductive RpcCode where
  | NotFound
  | Other (n : Nat)
deriving DecidableEq

/-- A server error returned from a completion RPC. -/
structure RpcError where
  code : RpcCode
deriving DecidableEq

/-- The `FailureInfo` variants `complete` inspects on a cancelled status. -/
inductive FailureInfo where
  | CanceledFailureInfo (details : Option Nat)
  | OtherFailure (n : Nat)
deriving DecidableEq

/-- A proto `Failure`; only `failure_info` is inspected. -/
structure Failure where
  failure_info : Option FailureInfo
deriving DecidableEq

/-- `activity_execution_result::Status`.  Payloads are opaque Nats. -/
inductive ActExecStatus where
  | WillCompleteAsync
  | Completed (result : Option Nat)
  | Failed (failure : Option Nat)
  | Cancelled (failure : Option Failure)
deriving DecidableEq

/-- The calls `complete` can make on the `WorkerClient`. -/
inductive ServerCall where
  | complete_activity_task (token : Nat) (result : Option Nat)
  | fail_activity_task (token : Nat) (failure : Option Nat)
  | cancel_activity_task (token : Nat) (details : Option Nat)
deriving DecidableEq

/-- Observable effects of `complete`, in program order. -/
inductive ActEffect where
  | removeEntry (token : Nat)
  | addPermit
  | evictHeartbeat (token : Nat)
  | notifyComplete
  | serverCall (c : ServerCall)
deriving DecidableEq

/-- The `WorkerActivityTasks` state: the outstanding-activity map (an
association list keyed by task token, bytes modelled as Nat), the available
permits of the metered slot semaphore (modelled from the spec as a counting
semaphore), and the configured limits. -/
structure ActState where
  outstanding_activity_tasks : List (Nat × RemoteInFlightActInfo)
  permits : Nat
  max_concurrent_activities : Nat
  default_heartbeat_throttle_interval : Nat
  max_heartbeat_throttle_interval : Nat
deriving DecidableEq

/-! ## Worker activity tasks: operations -/

/-- Map lookup on the outstanding-activity association list. -/
def lookupTok : List (Nat × RemoteInFlightActInfo) → Nat →
    Option RemoteInFlightActInfo
  | [], _ => none
  | (k, v) :: rest, t => if k = t then some v else lookupTok rest t

/-- Map insert (overwriting an existing key, as `DashMap::insert` does). -/
def insertTok (l : List (Nat × RemoteInFlightActInfo)) (t : Nat)
    (v : RemoteInFlightActInfo) : List (Nat × RemoteInFlightActInfo) :=
  match l with
  | [] => [(t, v)]
  | (k, w) :: rest =>
    if k = t then (t, v) :: rest else (k, w) :: insertTok rest t v

/-- Map removal (`DashMap::remove`). -/
def eraseTok : List (Nat × RemoteInFlightActInfo) → Nat →
    List (Nat × RemoteInFlightActInfo)
  | [], _ => []
  | (k, w) :: rest, t =>
    if k = t then rest else (k, w) :: eraseTok rest t

/-- The common prefix of `complete` on a tracked token: remove the map entry
and return the slot permit to the semaphore.  Returns the removed info when
the token was tracked. -/
def removeAndRelease (st : ActState) (token : Nat) :
    ActState × Option RemoteInFlightActInfo :=
  match lookupTok st.outstanding_activity_tasks token with
  | some info =>
    ({ st with
         outstanding_activity_tasks := eraseTok st.outstanding_activity_tasks token,
         permits := st.permits + 1 }, some info)
  | none => (st, none)

/-- The server call `complete` issues for a status (none for
`WillCompleteAsync`), including the extraction of cancellation details from a
`CanceledFailureInfo` payload (missing payloads are logged and tolerated). -/
def server_call_for (token : Nat) (status : ActExecStatus) : Option ServerCall :=
  match status with
  | ActExecStatus.WillCompleteAsync => none
  | ActExecStatus.Completed result => some (ServerCall.complete_activity_task token result)
  | ActExecStatus.Failed failure => some (ServerCall.fail_activity_task token failure)
  | ActExecStatus.Cancelled failure =>
    let details :=
      match failure with
      | some f =>
        match f.failure_info with
        | some (FailureInfo.CanceledFailureInfo details) => details
        | _ => none
      | none => none
    some (ServerCall.cancel_activity_task token details)

/-- `WorkerActivityTasks::complete`.  Returns the new state, the ordered
effect trace (map removal, permit return, heartbeat eviction, completion
pulse, then the optional server call), and the result: `NotFound` server
errors are swallowed, others surfaced; an untracked token is a warned
no-op. -/
def complete (st : ActState) (task_token : Nat) (status : ActExecStatus)
    (client : ServerCall → Option RpcError) :
    ActState × List ActEffect × Except RpcError Unit :=
  match removeAndRelease st task_token with
  | (st1, some act_info) =>
    let baseEffects : List ActEffect :=
      [ActEffect.removeEntry task_token, ActEffect.addPermit,
       ActEffect.evictHeartbeat task_token, ActEffect.notifyComplete]
    if act_info.known_not_found then
      (st1, baseEffects, Except.ok ())
    else
      match server_call_for task_token status with
      | none => (st1, baseEffects, Except.ok ())
      | some c =>
        let effects := baseEffects ++ [ActEffect.serverCall c]
        match client c with
        | none => (st1, effects, Except.ok ())
        | some e =>
          if e.code = RpcCode.NotFound then
            (st1, effects, Except.ok ())
          else
            (st1, effects, Except.error e)
  | (st1, none) => (st1, [], Except.ok ())

/-- `WorkerActivityTasks::record_heartbeat`, returning the throttle interval
(in nanoseconds) forwarded to the heartbeat manager.  A missing token is
`UnknownActivity`; an absent timeout is treated as zero; a timeout whose
millisecond count is zero selects the default interval (server bug
compatibility); the result is capped at the maximum. -/
def record_heartbeat (st : ActState) (task_token : Nat) :
    Except ActivityHeartbeatError Nat :=
  match lookupTok st.outstanding_activity_tasks task_token with
  | none => Except.error ActivityHeartbeatError.UnknownActivity
  | some info =>
    match prost_to_std (info.heartbeat_timeout.getD { seconds := 0, nanos := 0 }) with
    | none => Except.error ActivityHeartbeatError.InvalidHeartbeatTimeout
    | some heartbeat_timeout =>
      let throttle_interval :=
        if heartbeat_timeout / 1000000 = 0 then
          st.default_heartbeat_throttle_interval
        else
          mul_f64_08 heartbeat_timeout
      Except.ok (min throttle_interval st.max_heartbeat_throttle_interval)

/-- The throttle interval as the (amended) specification words it: the
default when the timeout is under one millisecond, otherwise eight tenths of
the timeout, capped at the maximum. -/
def spec_throttle (st : ActState) (heartbeat_timeout : Nat) : Nat :=
  min (if heartbeat_timeout < 1000000 then st.default_heartbeat_throttle_interval
       else mul_f64_08 heartbeat_timeout)
    st.max_heartbeat_throttle_interval

/-- The work item carried by a successful activity poll. -/
structure PollWork where
  task_token : Nat
  activity_type : String
  workflow_type : String
  heartbeat_timeout : Option ProstDuration
  now : Nat
deriving DecidableEq

/-- One public operation on `WorkerActivityTasks`, by its outcome: the four
`poll` outcomes (a timeout response, a pending-cancel delivery, a transport
error, real work) and `complete` on a token. -/
inductive ActOp where
  | pollTimeout
  | pollCancel (token : Nat) (reason : ActivityCancelReason)
  | pollTransportError
  | pollWork (w : PollWork)
  | completeOp (token : Nat)
deriving DecidableEq

/-- Modelled from the spec: the net state transition of one public operation.

* A poll timeout or transport error acquires a permit and drops it: no net
  change.
* A delivered cancel mutates the tracked entry's flags in place (setting
  `issued_cancel_to_lang`, and `known_not_found` when the reason is
  `NotFound`); orphaned or double cancels change nothing.
* Real work acquires a permit, records the in-flight info and forgets the
  permit; with no permit available the poll is still suspended, so no
  transition happens.
* `complete` removes the tracked entry and returns its permit (the server
  call does not change this state). -/
def step (st : ActState) (op : ActOp) : ActState :=
  match op with
  | ActOp.pollTimeout => st
  | ActOp.pollTransportError => st
  | ActOp.pollCancel token reason =>
    match lookupTok st.outstanding_activity_tasks token with
    | none => st
    | some info =>
      if info.issued_cancel_to_lang then
        st
      else
        let knf := if reason == ActivityCancelReason.NotFound then true
                   else info.known_not_found
        let info1 := { info with issued_cancel_to_lang := true, known_not_found := knf }
        { st with outstanding_activity_tasks :=
            insertTok st.outstanding_activity_tasks token info1 }
  | ActOp.pollWork w =>
    if st.permits = 0 then
      st
    else
      { st with permits := st.permits - 1,
                outstanding_activity_tasks :=
                  insertTok st.outstanding_activity_tasks w.task_token
                    (RemoteInFlightActInfo.new w.activity_type w.workflow_type
                      w.heartbeat_timeout w.now) }
  | ActOp.completeOp token => (removeAndRelease st token).1

/-- Run a sequence of public operations. -/
def runOps (st : ActState) : List ActOp → ActState
  | [] => st
  | op :: rest => runOps (step st op) rest

/-- Whether an operation respects task-token freshness in a state: a
`pollWork` must deliver a token that is not currently outstanding (the
server never redelivers an activity while its task is outstanding); all
other operations are unconstrained. -/
def pollWorkFresh (st : ActState) (op : ActOp) : Bool :=
  match op with
  | ActOp.pollWork w => (lookupTok st.outstanding_activity_tasks w.task_token).isNone
  | _ => true

/-- Every `pollWork` in the trace delivers a task token that is not
outstanding at the moment it is polled. -/
def fresh_trace (st : ActState) : List ActOp → Bool
  | [] => true
  | op :: rest => pollWorkFresh st op && fresh_trace (step st op) rest

/-- The slot invariant: available permits plus outstanding activities equals
the configured maximum. -/
def slot_invariant (st : ActState) : Bool :=
  st.permits + st.outstanding_activity_tasks.length == st.max_concurrent_activities

/-! ## Concrete states used for witnesses and counterexamples -/

/-- A benign machine update: one outgoing proto command, not replaying. -/
def updW : MachineUpdate :=
  { pend_if_applied := false,
    server_cmds := { commands := [5], replaying := false },
    local_activities := [], wft_timeout := 10 }

/-- A benign machines oracle built on `updW`. -/
def oracleW : MachineOracle :=
  { update_result := Except.ok updW, local_result_err := none,
    local_result_important := false, must_heartbeat := false }

/-- Outstanding task used by the C1 example run. -/
def otC1 : OutstandingTask :=
  { info := { task_token := 11, attempt := 1 }, pending_queries := [],
    start_time := 0 }

/-- Run entry used by the C1 witness. -/
def reC1 : RunEntry :=
  { task := some otC1, activation := some (OutstandingActivation.Normal false 2),
    buffered_poll := none, wft_finished := true, oracle := oracleW }

/-- Manager state used by the C1 witness. -/
def stC1 : WTMState :=
  { run_id := "run1", run := some reC1, pending_plain := false,
    pending_eviction := none, in_cache := true, cache_insert_evicts := none,
    other_run_accepts_eviction := false, pending_query_acts := 0,
    ready_buffered := [], pulses := [] }

/-- Command list used by the C1 witness: one machine-affecting command. -/
def cmdsC1 : List WFCommand := [WFCommand.MachineCmd 3]

/-- Run entry used by the C2 counterexample: the run exists, has an
outstanding task on attempt 3, and no outstanding activation. -/
def otC2 : OutstandingTask :=
  { info := { task_token := 7, attempt := 3 }, pending_queries := [],
    start_time := 0 }

/-- Run entry of the C2 counterexample. -/
def reC2 : RunEntry :=
  { task := some otC2, activation := none, buffered_poll := none,
    wft_finished := false, oracle := oracleW }

/-- Manager state used by the C2 counterexample. -/
def stC2 : WTMState :=
  { run_id := "run2", run := some reC2, pending_plain := false,
    pending_eviction := none, in_cache := true, cache_insert_evicts := none,
    other_run_accepts_eviction := false, pending_query_acts := 0,
    ready_buffered := [], pulses := [] }

/-- Run entry used by the C3 counterexample: a non-eviction activation is
outstanding and the task still holds one pending query. -/
def otC3 : OutstandingTask :=
  { info := { task_token := 9, attempt := 1 }, pending_queries := [21],
    start_time := 0 }

/-- Run entry of the C3 counterexample. -/
def reC3 : RunEntry :=
  { task := some otC3, activation := some (OutstandingActivation.Normal false 1),
    buffered_poll := none, wft_finished := true, oracle := oracleW }

/-- Manager state used by the C3 counterexample. -/
def stC3 : WTMState :=
  { run_id := "run3", run := some reC3, pending_plain := false,
    pending_eviction := none, in_cache := true, cache_insert_evicts := none,
    other_run_accepts_eviction := false, pending_query_acts := 0,
    ready_buffered := [], pulses := [] }

/-- Run entry used by the C3 amended-theorem witness: no pending queries, so
the normal completion branch runs. -/
def otC3w : OutstandingTask :=
  { info := { task_token := 10, attempt := 1 }, pending_queries := [],
    start_time := 0 }

/-- Run entry of the C3 amended-theorem witness. -/
def reC3w : RunEntry :=
  { task := some otC3w, activation := some (OutstandingActivation.Normal false 1),
    buffered_poll := none, wft_finished := true, oracle := oracleW }

/-- Manager state used by the C3 amended-theorem witness. -/
def stC3w : WTMState :=
  { run_id := "run3w", run := some reC3w, pending_plain := false,
    pending_eviction := none, in_cache := true, cache_insert_evicts := none,
    other_run_accepts_eviction := false, pending_query_acts := 0,
    ready_buffered := [], pulses := [] }

/-- The result of the C3 witness call (total by defaulting, but the witness
proves the call really returns `some`). -/
def afterC3w : WTMState × Bool :=
  (after_wft_report stC3w true).getD (stC3w, false)

/-- A query result carrying the legacy query id. -/
def qrLegacy : QueryResult := { query_id := LEGACY_QUERY_ID, payload := 0 }

/-- A query result carrying an ordinary query id. -/
def qrPlain : QueryResult := { query_id := "q1", payload := 1 }

/-- Command list used by the C7 claims: a legacy query response together with
one other command. -/
def cmdsC7 : List WFCommand :=
  [WFCommand.QueryResponse qrLegacy, WFCommand.MachineCmd 4]

/-- Run entry used by the C7 counterexample: the run exists but has no
outstanding workflow task. -/
def reC7 : RunEntry :=
  { task := none, activation := some (OutstandingActivation.Normal false 2),
    buffered_poll := none, wft_finished := false, oracle := oracleW }

/-- Manager state used by the C7 counterexample. -/
def stC7 : WTMState :=
  { run_id := "run7", run := some reC7, pending_plain := false,
    pending_eviction := none, in_cache := true, cache_insert_evicts := none,
    other_run_accepts_eviction := false, pending_query_acts := 0,
    ready_buffered := [], pulses := [] }

/-- Run entry used by the C6 and C7 amended-theorem witnesses: an
outstanding task is present. -/
def otC6w : OutstandingTask :=
  { info := { task_token := 13, attempt := 2 }, pending_queries := [],
    start_time := 0 }

/-- Run entry of the C6 and C7 amended-theorem witnesses. -/
def reC6w : RunEntry :=
  { task := some otC6w, activation := some OutstandingActivation.LegacyQuery,
    buffered_poll := none, wft_finished := false, oracle := oracleW }

/-- Manager state used by the C6 and C7 amended-theorem witnesses. -/
def stC6w : WTMState :=
  { run_id := "run6", run := some reC6w, pending_plain := false,
    pending_eviction := none, in_cache := true, cache_insert_evicts := none,
    other_run_accepts_eviction := false, pending_query_acts := 0,
    ready_buffered := [], pulses := [] }

/-- In-flight info used by the C4 counterexample: a recorded heartbeat
timeout of half a millisecond (nonzero, but with a zero millisecond
count). -/
def infoC4 : RemoteInFlightActInfo :=
  { base := { activity_type := "act", workflow_type := "wf", start_time := 0 },
    heartbeat_timeout := some { seconds := 0, nanos := 500000 },
    issued_cancel_to_lang := false, known_not_found := false }

/-- Activity worker state used by the C4 counterexample: default interval
30s, maximum 60s. -/
def stC4 : ActState :=
  { outstanding_activity_tasks := [(0, infoC4)], permits := 4,
    max_concurrent_activities := 5,
    default_heartbeat_throttle_interval := 30000000000,
    max_heartbeat_throttle_interval := 60000000000 }

/-- In-flight info used by the C4 amended-theorem witness: a two-second
heartbeat timeout. -/
def infoC4w : RemoteInFlightActInfo :=
  { base := { activity_type := "act", workflow_type := "wf", start_time := 0 },
    heartbeat_timeout := some { seconds := 2, nanos := 0 },
    issued_cancel_to_lang := false, known_not_found := false }

/-- Activity worker state used by the C4 amended-theorem witness. -/
def stC4w : ActState :=
  { outstanding_activity_tasks := [(5, infoC4w)], permits := 4,
    max_concurrent_activities := 5,
    default_heartbeat_throttle_interval := 30000000000,
    max_heartbeat_throttle_interval := 60000000000 }

/-- Poll work item A for the C5 witness trace. -/
def pwA : PollWork :=
  { task_token := 1, activity_type := "a", workflow_type := "w",
    heartbeat_timeout := none, now := 0 }

/-- Poll work item B for the C5 witness trace. -/
def pwB : PollWork :=
  { task_token := 2, activity_type := "b", workflow_type := "w",
    heartbeat_timeout := none, now := 1 }

/-- Initial activity worker state for the C5 witness: two slots, nothing
outstanding. -/
def stC5 : ActState :=
  { outstanding_activity_tasks := [], permits := 2,
    max_concurrent_activities := 2,
    default_heartbeat_throttle_interval := 0,
    max_heartbeat_throttle_interval := 0 }

/-- The C5 witness trace: every poll outcome and both tracked and untracked
completions. -/
def opsC5 : List ActOp :=
  [ActOp.pollTimeout, ActOp.pollWork pwA,
   ActOp.pollCancel 1 ActivityCancelReason.NotFound, ActOp.pollWork pwB,
   ActOp.pollTransportError, ActOp.completeOp 1, ActOp.completeOp 99,
   ActOp.completeOp 2]

/-- In-flight info used by the C8 witness: the server already told us the
activity does not exist. -/
def infoC8 : RemoteInFlightActInfo :=
  { base := { activity_type := "act", workflow_type := "wf", start_time := 0 },
    heartbeat_timeout := none, issued_cancel_to_lang := true,
    known_not_found := true }

/-- Activity worker state used by the C8 witness. -/
def stC8 : ActState :=
  { outstanding_activity_tasks := [(3, infoC8)], permits := 1,
    max_concurrent_activities := 2,
    default_heartbeat_throttle_interval := 0,
    max_heartbeat_throttle_interval := 0 }

/-- A client whose every call fails loudly; the C8 witness shows it is never
consulted. -/
def clientBoom : ServerCall → Option RpcError :=
  fun _ => some { code := RpcCode.Other 13 }

/-- In-flight info used by the C9 and C10 witnesses: trackable and not known
missing. -/
def infoC9 : RemoteInFlightActInfo :=
  { base := { activity_type := "act", workflow_type := "wf", start_time := 0 },
    heartbeat_timeout := none, issued_cancel_to_lang := false,
    known_not_found := false }

/-- Activity worker state used by the C9 witness. -/
def stC9 : ActState :=
  { outstanding_activity_tasks := [(4, infoC9)], permits := 0,
    max_concurrent_activities := 1,
    default_heartbeat_throttle_interval := 0,
    max_heartbeat_throttle_interval := 0 }

/-- A client that reports NotFound on every call. -/
def clientNotFound : ServerCall → Option RpcError :=
  fun _ => some { code := RpcCode.NotFound }

/-- Activity worker state used by the C10 witness. -/
def stC10 : ActState :=
  { outstanding_activity_tasks := [(6, infoC9)], permits := 0,
    max_concurrent_activities := 1,
    default_heartbeat_throttle_interval := 0,
    max_heartbeat_throttle_interval := 0 }

/-! ## Helper lemmas -/

theorem has_pending_needs_activation (st : WTMState) :
    has_pending (needs_activation st) = true := by
  simp [has_pending, needs_activation]

theorem exists_run_of_run_eq (s1 s2 : WTMState) (h : s1.run = s2.run) :
    exists_run s1 = exists_run s2 := by
  unfold exists_run
  rw [h]

theorem activation_has_eviction_of_run_eq (s1 s2 : WTMState) (h : s1.run = s2.run) :
    activation_has_eviction s1 = activation_has_eviction s2 := by
  unfold activation_has_eviction get_activation
  rw [h]

theorem get_task_of_run_eq (s1 s2 : WTMState) (h : s1.run = s2.run) :
    get_task s1 = get_task s2 := by
  unfold get_task
  rw [h]

theorem request_eviction_run (st : WTMState) (reason : EvictionReason) :
    (request_eviction st reason).2.run = st.run := by
  unfold request_eviction
  by_cases h : exists_run st = true
  · by_cases h2 : activation_has_eviction st = true
    · simp [h, h2]
    · simp only [Bool.not_eq_true] at h2
      simp [h, h2]
  · simp only [Bool.not_eq_true] at h
    simp [h]

theorem request_eviction_result (st : WTMState) (reason : EvictionReason)
    (h : exists_run st = true) :
    (request_eviction st reason).1 =
      (if activation_has_eviction st then
        EvictionRequestResult.EvictionAlreadyRequested
          ((get_task st).map (fun wt => wt.info.attempt))
      else
        EvictionRequestResult.EvictionRequested
          ((get_task st).map (fun wt => wt.info.attempt))) := by
  unfold request_eviction
  by_cases h2 : activation_has_eviction st = true
  · simp [h, h2]
  · simp only [Bool.not_eq_true] at h2
    simp [h, h2]

/-! ## Claim C2 -/

/-- Claim C2: for a run present in the concurrency manager, two consecutive
`request_eviction` calls were claimed to return `EvictionRequested` then
`EvictionAlreadyRequested`.  Counterexample: for a run whose outstanding
activation carries no eviction (here: no outstanding activation at all),
both consecutive calls return `EvictionRequested(attempt)`, because the
queued eviction notice does not change the outstanding activation that the
`EvictionAlreadyRequested` test inspects. -/
theorem C2_counterexample :
    exists_run stC2 = true ∧
    (request_eviction stC2 EvictionReason.Unspecified).1 =
      EvictionRequestResult.EvictionRequested (some 3) ∧
    (request_eviction (request_eviction stC2 EvictionReason.Unspecified).2
        EvictionReason.Unspecified).1 =
      EvictionRequestResult.EvictionRequested (some 3) ∧
    (request_eviction (request_eviction stC2 EvictionReason.Unspecified).2
        EvictionReason.Unspecified).1 ≠
      EvictionRequestResult.EvictionAlreadyRequested (some 3) := by
  refine ⟨rfl, rfl, rfl, ?_⟩
  decide

/-- Claim C2 (amended): for a run present in the concurrency manager, two
consecutive `request_eviction` calls return the same result - both
`EvictionRequested(attempt)` when the outstanding activation does not carry
an eviction, and both `EvictionAlreadyRequested(attempt)` when it does. -/
theorem C2_request_eviction_consecutive (st : WTMState) (reason : EvictionReason)
    (h : exists_run st = true) :
    (request_eviction st reason).1 =
      (if activation_has_eviction st then
        EvictionRequestResult.EvictionAlreadyRequested
          ((get_task st).map (fun wt => wt.info.attempt))
      else
        EvictionRequestResult.EvictionRequested
          ((get_task st).map (fun wt => wt.info.attempt))) ∧
    (request_eviction (request_eviction st reason).2 reason).1 =
      (request_eviction st reason).1 := by
  have hrun := request_eviction_run st reason
  have hex : exists_run (request_eviction st reason).2 = true := by
    rw [exists_run_of_run_eq _ st hrun]
    exact h
  refine ⟨request_eviction_result st reason h, ?_⟩
  rw [request_eviction_result (request_eviction st reason).2 reason hex,
    request_eviction_result st reason h,
    activation_has_eviction_of_run_eq _ st hrun, get_task_of_run_eq _ st hrun]

/-- Witness for the amended C2 theorem at the concrete state `stC2`. -/
theorem C2_request_eviction_consecutive_witness :
    (request_eviction stC2 EvictionReason.Unspecified).1 =
      (if activation_has_eviction stC2 then
        EvictionRequestResult.EvictionAlreadyRequested
          ((get_task stC2).map (fun wt => wt.info.attempt))
      else
        EvictionRequestResult.EvictionRequested
          ((get_task stC2).map (fun wt => wt.info.attempt))) ∧
    (request_eviction (request_eviction stC2 EvictionReason.Unspecified).2
        EvictionReason.Unspecified).1 =
      (request_eviction stC2 EvictionReason.Unspecified).1 :=
  C2_request_eviction_consecutive stC2 EvictionReason.Unspecified (by decide)

/-! ## Claim C4 -/

/-- Claim C4: the throttle interval was claimed to be the default exactly
when the recorded heartbeat timeout is absent or zero, and `timeout * 0.8`
otherwise.  Counterexample: a nonzero timeout of half a millisecond has a
zero millisecond count, so the code uses the default interval (30s here),
not `0.8 * timeout`. -/
theorem C4_counterexample :
    record_heartbeat stC4 0 = Except.ok 30000000000 ∧
    (30000000000 : Nat) ≠
      min (mul_f64_08 500000) stC4.max_heartbeat_throttle_interval := by
  refine ⟨rfl, ?_⟩
  decide

/-- Claim C4 (amended): for a tracked activity whose recorded heartbeat
timeout converts to `hb` nanoseconds, `record_heartbeat` returns the default
interval when `hb` is under one millisecond (absent timeouts convert to
zero) and `hb * 0.8` otherwise, capped at the maximum throttle interval; the
result never exceeds the maximum; an untracked task token yields
`UnknownActivity`. -/
theorem C4_throttle_clamp (st : ActState) (t : Nat) :
    (lookupTok st.outstanding_activity_tasks t = none →
      record_heartbeat st t = Except.error ActivityHeartbeatError.UnknownActivity) ∧
    (∀ info hb, lookupTok st.outstanding_activity_tasks t = some info →
      prost_to_std (info.heartbeat_timeout.getD { seconds := 0, nanos := 0 }) = some hb →
      record_heartbeat st t = Except.ok (spec_throttle st hb) ∧
      spec_throttle st hb ≤ st.max_heartbeat_throttle_interval) := by
  constructor
  · intro hnone
    unfold record_heartbeat
    simp [hnone]
  · intro info hb hsome hconv
    have hms : (hb / 1000000 = 0) ↔ (hb < 1000000) := by omega
    constructor
    · unfold record_heartbeat
      simp only [hsome, hconv]
      unfold spec_throttle
      by_cases hz : hb < 1000000
      · rw [if_pos (hms.mpr hz), if_pos hz]
      · rw [if_neg (fun hc => hz (hms.mp hc)), if_neg hz]
    · exact Nat.min_le_right _ _

/-- Witness for the amended C4 theorem: a two-second heartbeat timeout gives
a 1.6s throttle interval. -/
theorem C4_throttle_clamp_witness :
    record_heartbeat stC4w 5 = Except.ok (spec_throttle stC4w 2000000000) :=
  ((C4_throttle_clamp stC4w 5).2 infoC4w 2000000000 rfl rfl).1

/-! ## Claim C8 -/

/-- Claim C8: completing a tracked activity that is known not found makes no
server call for any status, still removes the map entry, returns the slot
permit, evicts the token's heartbeats, pulses the completion notifier, and
returns Ok. -/
theorem C8_known_not_found_no_call (st : ActState) (t : Nat)
    (info : RemoteInFlightActInfo) (status : ActExecStatus)
    (client : ServerCall → Option RpcError)
    (hmem : lookupTok st.outstanding_activity_tasks t = some info)
    (hknf : info.known_not_found = true) :
    complete st t status client =
      ({ st with
           outstanding_activity_tasks := eraseTok st.outstanding_activity_tasks t,
           permits := st.permits + 1 },
       [ActEffect.removeEntry t, ActEffect.addPermit, ActEffect.evictHeartbeat t,
        ActEffect.notifyComplete],
       Except.ok ()) := by
  unfold complete removeAndRelease
  rw [hmem]
  simp [hknf]

/-- Witness for C8: completing the known-not-found activity in `stC8`
against a client that fails every call. -/
theorem C8_known_not_found_no_call_witness :
    complete stC8 3 (ActExecStatus.Completed none) clientBoom =
      ({ stC8 with
           outstanding_activity_tasks := eraseTok stC8.outstanding_activity_tasks 3,
           permits := stC8.permits + 1 },
       [ActEffect.removeEntry 3, ActEffect.addPermit, ActEffect.evictHeartbeat 3,
        ActEffect.notifyComplete],
       Except.ok ()) :=
  C8_known_not_found_no_call stC8 3 infoC8 (ActExecStatus.Completed none)
    clientBoom rfl rfl

/-! ## Claim C9 -/

/-- Claim C9: for a tracked activity not known missing, when the server call
issued by `complete` fails, a NotFound code is swallowed (Ok) and any other
code is surfaced as the returned error. -/
theorem C9_notfound_swallowed (st : ActState) (t : Nat)
    (info : RemoteInFlightActInfo) (status : ActExecStatus)
    (client : ServerCall → Option RpcError) (c : ServerCall) (e : RpcError)
    (hmem : lookupTok st.outstanding_activity_tasks t = some info)
    (hknf : info.known_not_found = false)
    (hcall : server_call_for t status = some c)
    (herr : client c = some e) :
    (complete st t status client).2.2 =
      (if e.code = RpcCode.NotFound then Except.ok () else Except.error e) := by
  unfold complete removeAndRelease
  rw [hmem]
  simp only [hknf, Bool.false_eq_true, if_false, hcall]
  rw [herr]
  by_cases hc : e.code = RpcCode.NotFound <;> simp [hc]

/-- Witness for C9 at the concrete state `stC9` with a client that reports
NotFound. -/
theorem C9_notfound_swallowed_witness :
    (complete stC9 4 (ActExecStatus.Completed none) clientNotFound).2.2 =
      (if ({ code := RpcCode.NotFound } : RpcError).code = RpcCode.NotFound then
        Except.ok () else Except.error { code := RpcCode.NotFound }) :=
  C9_notfound_swallowed stC9 4 infoC9 (ActExecStatus.Completed none)
    clientNotFound (ServerCall.complete_activity_task 4 none)
    { code := RpcCode.NotFound } rfl rfl rfl rfl

/-! ## Association-list lemmas for the outstanding-activity map -/

theorem lookupTok_eq_none_of_not_mem (l : List (Nat × RemoteInFlightActInfo))
    (t : Nat) (h : t ∉ l.map Prod.fst) : lookupTok l t = none := by
  induction l with
  | nil => rfl
  | cons p rest ih =>
    obtain ⟨k, v⟩ := p
    simp only [List.map_cons, List.mem_cons] at h
    push_neg at h
    unfold lookupTok
    rw [if_neg (fun hk => h.1 hk.symm)]
    exact ih h.2

theorem lookupTok_eraseTok_self (l : List (Nat × RemoteInFlightActInfo))
    (t : Nat) (h : (l.map Prod.fst).Nodup) :
    lookupTok (eraseTok l t) t = none := by
  induction l with
  | nil => rfl
  | cons p rest ih =>
    obtain ⟨k, v⟩ := p
    simp only [List.map_cons, List.nodup_cons] at h
    unfold eraseTok
    by_cases hk : k = t
    · rw [if_pos hk]
      apply lookupTok_eq_none_of_not_mem
      rw [← hk]
      exact h.1
    · rw [if_neg hk]
      unfold lookupTok
      rw [if_neg hk]
      exact ih h.2

theorem length_insertTok_of_lookup_none (l : List (Nat × RemoteInFlightActInfo))
    (t : Nat) (v : RemoteInFlightActInfo) (h : lookupTok l t = none) :
    (insertTok l t v).length = l.length + 1 := by
  induction l with
  | nil => rfl
  | cons p rest ih =>
    obtain ⟨k, w⟩ := p
    unfold lookupTok at h
    unfold insertTok
    by_cases hk : k = t
    · rw [if_pos hk] at h
      cases h
    · rw [if_neg hk] at h
      rw [if_neg hk]
      simp [ih h]

theorem length_insertTok_of_lookup_some (l : List (Nat × RemoteInFlightActInfo))
    (t : Nat) (v u : RemoteInFlightActInfo) (h : lookupTok l t = some u) :
    (insertTok l t v).length = l.length := by
  induction l with
  | nil => cases h
  | cons p rest ih =>
    obtain ⟨k, w⟩ := p
    unfold lookupTok at h
    unfold insertTok
    by_cases hk : k = t
    · rw [if_pos hk]
      rfl
    · rw [if_neg hk] at h
      rw [if_neg hk]
      simp [ih h]

theorem length_eraseTok_of_lookup_some (l : List (Nat × RemoteInFlightActInfo))
    (t : Nat) (u : RemoteInFlightActInfo) (h : lookupTok l t = some u) :
    l.length = (eraseTok l t).length + 1 := by
  induction l with
  | nil => cases h
  | cons p rest ih =>
    obtain ⟨k, w⟩ := p
    unfold lookupTok at h
    unfold eraseTok
    by_cases hk : k = t
    · rw [if_pos hk]
      rfl
    · rw [if_neg hk] at h
      rw [if_neg hk]
      simp [ih h]

/-! ## Claim C5 -/

theorem step_preserves_slot_invariant (st : ActState) (op : ActOp)
    (hf : pollWorkFresh st op = true)
    (hinv : slot_invariant st = true) : slot_invariant (step st op) = true := by
  cases op with
  | pollTimeout => exact hinv
  | pollTransportError => exact hinv
  | pollCancel token reason =>
    simp only [step]
    cases hl : lookupTok st.outstanding_activity_tasks token with
    | none => exact hinv
    | some info =>
      simp only [hl]
      by_cases hic : info.issued_cancel_to_lang = true
      · simp [hic, hinv]
      · simp only [Bool.not_eq_true] at hic
        simp only [hic, Bool.false_eq_true, if_false]
        simp only [slot_invariant, beq_iff_eq] at hinv ⊢
        rw [length_insertTok_of_lookup_some _ _ _ _ hl]
        omega
  | pollWork w =>
    have hf2 : (lookupTok st.outstanding_activity_tasks w.task_token).isNone = true := hf
    simp only [step]
    by_cases hp : st.permits = 0
    · simp [hp, hinv]
    · rw [if_neg hp]
      simp only [slot_invariant, beq_iff_eq] at hinv ⊢
      rw [length_insertTok_of_lookup_none _ _ _ (Option.isNone_iff_eq_none.mp hf2)]
      omega
  | completeOp token =>
    simp only [step]
    unfold removeAndRelease
    cases hl : lookupTok st.outstanding_activity_tasks token with
    | none => simp [hl, hinv]
    | some info =>
      simp only [hl]
      simp only [slot_invariant, beq_iff_eq] at hinv ⊢
      have hlen := length_eraseTok_of_lookup_some _ _ _ hl
      omega

/-- Claim C5: starting from a state satisfying the slot invariant (available
permits plus outstanding activities equals the configured maximum), every
interleaving of the public operations - `poll` with its timeout, real-work,
cancel and transport-error outcomes, and `complete` on tracked and untracked
tokens - preserves the invariant, provided polled work carries task tokens
that are not already outstanding. -/
theorem C5_slot_invariant_preserved (st : ActState) (ops : List ActOp)
    (hfresh : fresh_trace st ops = true)
    (hinv : slot_invariant st = true) :
    slot_invariant (runOps st ops) = true := by
  induction ops generalizing st with
  | nil => exact hinv
  | cons op rest ih =>
    unfold fresh_trace at hfresh
    rw [Bool.and_eq_true] at hfresh
    unfold runOps
    exact ih (step st op) hfresh.2 (step_preserves_slot_invariant st op hfresh.1 hinv)

/-- Witness for C5: a concrete trace through every operation kind keeps the
invariant. -/
theorem C5_slot_invariant_preserved_witness :
    fresh_trace stC5 opsC5 = true ∧ slot_invariant stC5 = true ∧
    slot_invariant (runOps stC5 opsC5) = true :=
  ⟨by decide, by decide, C5_slot_invariant_preserved stC5 opsC5 (by decide) (by decide)⟩

/-! ## Claim C10 -/

theorem complete_untracked (st : ActState) (t : Nat) (status : ActExecStatus)
    (client : ServerCall → Option RpcError)
    (h : lookupTok st.outstanding_activity_tasks t = none) :
    complete st t status client = (st, [], Except.ok ()) := by
  unfold complete removeAndRelease
  simp [h]

/-- Claim C10: completing a tracked activity removes the map entry, returns
the slot permit, evicts heartbeats and pulses the completion notifier before
any server call is attempted (the effect trace opens with exactly those four
effects and everything after them is a server call), the post-state is the
same even when the result is a surfaced server error, and retrying
`complete` for the same token afterwards is a no-op returning Ok. -/
theorem C10_complete_ordering (st : ActState) (t : Nat)
    (info : RemoteInFlightActInfo) (status : ActExecStatus)
    (client : ServerCall → Option RpcError)
    (hmem : lookupTok st.outstanding_activity_tasks t = some info)
    (hnodup : (st.outstanding_activity_tasks.map Prod.fst).Nodup) :
    (complete st t status client).1 =
      { st with
          outstanding_activity_tasks := eraseTok st.outstanding_activity_tasks t,
          permits := st.permits + 1 } ∧
    (∃ callEffects,
      (complete st t status client).2.1 =
        [ActEffect.removeEntry t, ActEffect.addPermit, ActEffect.evictHeartbeat t,
         ActEffect.notifyComplete] ++ callEffects ∧
      ∀ eff ∈ callEffects, ∃ c, eff = ActEffect.serverCall c) ∧
    complete (complete st t status client).1 t status client =
      ((complete st t status client).1, [], Except.ok ()) := by
  have herase : lookupTok (eraseTok st.outstanding_activity_tasks t) t = none :=
    lookupTok_eraseTok_self _ _ hnodup
  have hfst : (complete st t status client).1 =
      { st with
          outstanding_activity_tasks := eraseTok st.outstanding_activity_tasks t,
          permits := st.permits + 1 } := by
    unfold complete removeAndRelease
    simp only [hmem]
    by_cases hknf : info.known_not_found = true
    · simp [hknf]
    · simp only [Bool.not_eq_true] at hknf
      cases hcall : server_call_for t status with
      | none => simp [hknf, hcall]
      | some c =>
        cases herr : client c with
        | none => simp [hknf, hcall, herr]
        | some e =>
          by_cases hcode : e.code = RpcCode.NotFound
          · simp [hknf, hcall, herr, hcode]
          · simp [hknf, hcall, herr, hcode]
  have heff : ∃ callEffects,
      (complete st t status client).2.1 =
        [ActEffect.removeEntry t, ActEffect.addPermit, ActEffect.evictHeartbeat t,
         ActEffect.notifyComplete] ++ callEffects ∧
      ∀ eff ∈ callEffects, ∃ c, eff = ActEffect.serverCall c := by
    unfold complete removeAndRelease
    simp only [hmem]
    by_cases hknf : info.known_not_found = true
    · exact ⟨[], by simp [hknf], by simp⟩
    · simp only [Bool.not_eq_true] at hknf
      cases hcall : server_call_for t status with
      | none => exact ⟨[], by simp [hknf, hcall], by simp⟩
      | some c =>
        cases herr : client c with
        | none =>
          exact ⟨[ActEffect.serverCall c], by simp [hknf, hcall, herr],
            by intro eff he; simp at he; exact ⟨c, he⟩⟩
        | some e =>
          by_cases hcode : e.code = RpcCode.NotFound
          · exact ⟨[ActEffect.serverCall c], by simp [hknf, hcall, herr, hcode],
              by intro eff he; simp at he; exact ⟨c, he⟩⟩
          · exact ⟨[ActEffect.serverCall c], by simp [hknf, hcall, herr, hcode],
              by intro eff he; simp at he; exact ⟨c, he⟩⟩
  refine ⟨hfst, heff, ?_⟩
  rw [hfst]
  exact complete_untracked _ _ _ _ herase

/-- Witness for C10 at a concrete state against a client that fails with a
non-NotFound error. -/
theorem C10_complete_ordering_witness :
    (complete stC10 6 (ActExecStatus.Completed none) clientBoom).1 =
      { stC10 with
          outstanding_activity_tasks := eraseTok stC10.outstanding_activity_tasks 6,
          permits := stC10.permits + 1 } ∧
    (∃ callEffects,
      (complete stC10 6 (ActExecStatus.Completed none) clientBoom).2.1 =
        [ActEffect.removeEntry 6, ActEffect.addPermit, ActEffect.evictHeartbeat 6,
         ActEffect.notifyComplete] ++ callEffects ∧
      ∀ eff ∈ callEffects, ∃ c, eff = ActEffect.serverCall c) ∧
    complete (complete stC10 6 (ActExecStatus.Completed none) clientBoom).1 6
        (ActExecStatus.Completed none) clientBoom =
      ((complete stC10 6 (ActExecStatus.Completed none) clientBoom).1, [],
        Except.ok ()) :=
  C10_complete_ordering stC10 6 infoC9 (ActExecStatus.Completed none) clientBoom
    rfl (by decide)

/-! ## Claim C3 -/

theorem get_activation_on_activation_done (st : WTMState) :
    get_activation (on_activation_done st) = none := by
  unfold on_activation_done delete_activation get_activation
  cases hr : st.run <;> simp [hr]

theorem pulses_on_activation_done (st : WTMState) :
    (on_activation_done st).pulses = st.pulses ++ [Pulse.one] := by
  unfold on_activation_done delete_activation
  cases hr : st.run <;> simp [hr]

/-- Claim C3: `after_wft_report` was claimed to always delete the
OutstandingActivation and pulse the notifier with a single-waker wakeup,
regardless of branch.  Counterexample: when the outstanding task still holds
pending queries (and there is no eviction and no pending activation), the
call returns early - the outstanding activation survives and the only pulse
is a broadcast (`notify_waiters`), not `notify_one`. -/
theorem C3_counterexample :
    (after_wft_report stC3 true).map
        (fun p => (get_activation p.1, p.1.pulses, p.2)) =
      some (some (OutstandingActivation.Normal false 1), [Pulse.waiters], false) := by
  decide

/-- Claim C3 (amended): unless `after_wft_report` takes the pending-queries
early return, the outstanding activation has been deleted when the call
returns and the last notifier pulse is the single-waker `notify_one`; on the
pending-queries branch the activation is kept, the notifier is pulsed with a
broadcast, and the WFT is not marked complete. -/
theorem C3_after_wft_report_outcome (st : WTMState) (reported : Bool)
    (stq : WTMState) (b : Bool)
    (h : after_wft_report st reported = some (stq, b)) :
    (takes_query_early_return st = false →
      get_activation stq = none ∧ stq.pulses.getLast? = some Pulse.one) ∧
    (takes_query_early_return st = true →
      get_activation stq = get_activation st ∧
      stq.pulses = st.pulses ++ [Pulse.waiters] ∧ b = false) := by
  unfold after_wft_report at h
  by_cases hje : activation_has_eviction st = true
  · have htq : takes_query_early_return st = false := by
      unfold takes_query_early_return
      rw [hje]
      rfl
    simp only [hje] at h
    simp at h
    obtain ⟨h1, h2⟩ := h
    subst h1
    refine ⟨fun _ => ?_, fun hcontra => by simp [htq] at hcontra⟩
    exact ⟨get_activation_on_activation_done _, by
      rw [pulses_on_activation_done]
      exact List.getLast?_concat _⟩
  · simp only [Bool.not_eq_true] at hje
    simp only [hje] at h
    simp at h
    by_cases hp : has_pending st = true
    · have htq : takes_query_early_return st = false := by
        unfold takes_query_early_return
        rw [hp]
        simp
      simp only [hp] at h
      simp at h
      obtain ⟨h1, h2⟩ := h
      subst h1
      refine ⟨fun _ => ?_, fun hcontra => by simp [htq] at hcontra⟩
      exact ⟨get_activation_on_activation_done _, by
        rw [pulses_on_activation_done]
        exact List.getLast?_concat _⟩
    · simp only [Bool.not_eq_true] at hp
      simp only [hp] at h
      simp at h
      cases hr : st.run with
      | none =>
        rw [hr] at h
        simp at h
      | some re =>
        rw [hr] at h
        simp at h
        cases ht : re.task with
        | none =>
          rw [ht] at h
          have htq : takes_query_early_return st = false := by
            unfold takes_query_early_return get_task
            rw [hr]
            simp [ht]
          simp at h
          obtain ⟨h1, h2⟩ := h
          subst h1
          refine ⟨fun _ => ?_, fun hcontra => by simp [htq] at hcontra⟩
          exact ⟨get_activation_on_activation_done _, by
            rw [pulses_on_activation_done]
            exact List.getLast?_concat _⟩
        | some ot =>
          rw [ht] at h
          by_cases hqe : ot.pending_queries = []
          · have htq : takes_query_early_return st = false := by
              unfold takes_query_early_return get_task
              rw [hr]
              simp [ht, hqe]
            simp only [hqe] at h
            simp at h
            obtain ⟨h1, h2⟩ := h
            subst h1
            refine ⟨fun _ => ?_, fun hcontra => by simp [htq] at hcontra⟩
            exact ⟨get_activation_on_activation_done _, by
              rw [pulses_on_activation_done]
              exact List.getLast?_concat _⟩
          · have htq : takes_query_early_return st = true := by
              unfold takes_query_early_return get_task
              rw [hr]
              simp [ht, hje, hp, List.isEmpty_iff, hqe]
            simp [hqe] at h
            obtain ⟨h1, h2⟩ := h
            subst h2
            refine ⟨fun hcontra => by simp [htq] at hcontra, fun _ => ?_⟩
            refine ⟨?_, ?_, rfl⟩
            · rw [← h1]
              unfold get_activation
              rw [hr]
              rfl
            · rw [← h1]


/-- Witness for the amended C3 theorem: the normal completion branch deletes
the activation and ends with a `notify_one` pulse. -/
theorem C3_after_wft_report_outcome_witness :
    get_activation afterC3w.1 = none ∧
    afterC3w.1.pulses.getLast? = some Pulse.one :=
  (C3_after_wft_report_outcome stC3w true afterC3w.1 afterC3w.2 (by decide)).1
    (by decide)

/-! ## Claim C6 -/

/-- Claim C6: for a run with an outstanding workflow task, a reply consisting
of exactly one QueryResponse carrying the legacy query id produces a
`RespondLegacyQuery` action with that result, leaves the state untouched,
and does not update the workflow machines. -/
theorem C6_legacy_query_reply (st : WTMState) (re : RunEntry)
    (entry : OutstandingTask) (qr : QueryResult)
    (hrun : st.run = some re) (htask : re.task = some entry)
    (hid : qr.query_id = LEGACY_QUERY_ID) :
    successful_activation st [WFCommand.QueryResponse qr] =
      (Except.ok (some ⟨entry.info.task_token,
        ActivationAction.RespondLegacyQuery qr⟩), st, false) := by
  unfold successful_activation
  rw [hrun]
  simp [htask, hid]

/-- Witness for C6 at the concrete state `stC6w`. -/
theorem C6_legacy_query_reply_witness :
    successful_activation stC6w [WFCommand.QueryResponse qrLegacy] =
      (Except.ok (some ⟨otC6w.info.task_token,
        ActivationAction.RespondLegacyQuery qrLegacy⟩), stC6w, false) :=
  C6_legacy_query_reply stC6w reC6w otC6w qrLegacy rfl rfl rfl

/-! ## Claim C7 -/

theorem isLegacyQueryResponseOnly_eq_false_of_two (commands : List WFCommand)
    (h : 2 ≤ commands.length) : isLegacyQueryResponseOnly commands = false := by
  rcases commands with _ | ⟨c, rest⟩
  · rfl
  · rcases rest with _ | ⟨c2, rest2⟩
    · simp at h
    · rcases c with qr | mc <;> rfl

theorem stripQueryResponses_none_of_legacy (commands : List WFCommand)
    (qr : QueryResult) (hmem : WFCommand.QueryResponse qr ∈ commands)
    (hid : qr.query_id = LEGACY_QUERY_ID) :
    stripQueryResponses commands = none := by
  induction commands with
  | nil => cases hmem
  | cons c rest ih =>
    rcases List.mem_cons.mp hmem with hc | hrest
    · rw [← hc]
      unfold stripQueryResponses
      rw [hid]
      simp
    · rcases c with qr2 | mc
      · unfold stripQueryResponses
        by_cases h2 : (qr2.query_id == LEGACY_QUERY_ID) = true
        · simp [h2]
        · simp only [Bool.not_eq_true] at h2
          simp [h2, ih hrest]
      · unfold stripQueryResponses
        simp [ih hrest]

theorem successful_activation_reduce (st : WTMState) (re : RunEntry)
    (entry : OutstandingTask) (commands : List WFCommand)
    (hrun : st.run = some re) (htask : re.task = some entry)
    (hnl : isLegacyQueryResponseOnly commands = false) :
    successful_activation st commands =
      successful_activation_rest st re entry (activation_has_only_eviction st)
        commands := by
  unfold successful_activation
  rw [hrun]
  simp only [htask]
  rcases commands with _ | ⟨c, rest⟩
  · rfl
  · rcases c with qr | mc
    · rcases rest with _ | ⟨c2, rest2⟩
      · have hnl2 : (qr.query_id == LEGACY_QUERY_ID) = false := hnl
        simp [hnl2]
      · rfl
    · rfl

/-- Claim C7: a reply whose command list contains a legacy-id QueryResponse
together with at least one other command was claimed to always return a
fatal `WorkflowUpdateError`.  Counterexample: when the run has no
outstanding workflow task, `successful_activation` returns `Ok(None)`
before inspecting the commands. -/
theorem C7_counterexample :
    WFCommand.QueryResponse qrLegacy ∈ cmdsC7 ∧
    qrLegacy.query_id = LEGACY_QUERY_ID ∧
    2 ≤ cmdsC7.length ∧
    (successful_activation stC7 cmdsC7).1 = Except.ok none := by
  refine ⟨by decide, by decide, by decide, rfl⟩

/-- Claim C7 (amended): provided the run has an outstanding workflow task, a
reply containing a legacy-id QueryResponse together with at least one other
command returns the fatal `WorkflowUpdateError` for that run, without
updating the machines. -/
theorem C7_legacy_mixed_fatal (st : WTMState) (re : RunEntry)
    (entry : OutstandingTask) (commands : List WFCommand) (qr : QueryResult)
    (hrun : st.run = some re) (htask : re.task = some entry)
    (hmem : WFCommand.QueryResponse qr ∈ commands)
    (hid : qr.query_id = LEGACY_QUERY_ID)
    (hlen : 2 ≤ commands.length) :
    successful_activation st commands =
      (Except.error ⟨WFMachinesError.Fatal legacy_mixed_msg, st.run_id⟩, st,
        false) := by
  rw [successful_activation_reduce st re entry commands hrun htask
    (isLegacyQueryResponseOnly_eq_false_of_two commands hlen)]
  unfold successful_activation_rest
  rw [stripQueryResponses_none_of_legacy commands qr hmem hid]

/-- Witness for the amended C7 theorem at the concrete state `stC6w`. -/
theorem C7_legacy_mixed_fatal_witness :
    successful_activation stC6w cmdsC7 =
      (Except.error ⟨WFMachinesError.Fatal legacy_mixed_msg, stC6w.run_id⟩,
        stC6w, false) :=
  C7_legacy_mixed_fatal stC6w reC6w otC6w cmdsC7 qrLegacy rfl rfl (by decide)
    rfl (by decide)

/-! ## Claim C1 -/

theorem send_condition_bridge (pend repl qpb ncae hq : Bool) :
    (!(pend || repl || qpb || ncae) || hq) =
      spec_should_send pend repl qpb ncae hq := by
  cases pend <;> cases repl <;> cases qpb <;> cases ncae <;> cases hq <;> rfl

theorem has_pending_after_signals (st : WTMState) (a b : Bool) :
    has_pending (if b then needs_activation (if a then needs_activation st else st)
                 else (if a then needs_activation st else st)) =
      (has_pending st || a || b) := by
  cases a <;> cases b <;> simp [has_pending_needs_activation]

/-- Claim C1: for a reply that is not a lone legacy query response, on a run
with an outstanding workflow task and a successful machine update, the
result carries a `WftComplete` action iff there are query responses among
the commands or none of the four suppression conditions hold (pending
activations for the run as of the sending decision, machines still
replaying, playing back solely to service a pending query, eviction-only
activation with no outgoing commands); otherwise the call returns
`Ok(None)`. -/
theorem C1_send_decision (st : WTMState) (re : RunEntry)
    (entry : OutstandingTask) (commands : List WFCommand)
    (qrs : List QueryResult) (mcmds : List WFCommand) (upd : MachineUpdate)
    (hrun : st.run = some re) (htask : re.task = some entry)
    (hnl : isLegacyQueryResponseOnly commands = false)
    (hstrip : stripQueryResponses commands = some (qrs, mcmds))
    (hupd : re.oracle.update_result = Except.ok upd)
    (hloc : re.oracle.local_result_err = none) :
    (successful_activation st commands).1 =
      Except.ok
        (if spec_should_send (pending_at_decision st re upd)
            upd.server_cmds.replaying
            (!entry.pending_queries.isEmpty && qrs.isEmpty)
            (upd.server_cmds.commands.isEmpty && activation_has_only_eviction st)
            (!qrs.isEmpty)
         then
           some ⟨entry.info.task_token,
             ActivationAction.WftComplete upd.server_cmds.commands qrs
               re.oracle.must_heartbeat⟩
         else none) := by
  rw [successful_activation_reduce st re entry commands hrun htask hnl]
  unfold successful_activation_rest
  simp only [hstrip, hupd, hloc]
  rw [has_pending_after_signals st (!activation_has_eviction st && upd.pend_if_applied)
    re.oracle.local_result_important]
  rw [send_condition_bridge]
  simp only [Bool.not_not]
  unfold pending_at_decision
  cases hC : spec_should_send
      (has_pending st || (!activation_has_eviction st && upd.pend_if_applied) ||
        re.oracle.local_result_important)
      upd.server_cmds.replaying
      (!entry.pending_queries.isEmpty && qrs.isEmpty)
      (upd.server_cmds.commands.isEmpty && activation_has_only_eviction st)
      (!qrs.isEmpty) <;>
    simp [hC]

/-- Witness for C1: one machine-affecting command, no query responses, no
suppression condition, so the reply carries a `WftComplete`. -/
theorem C1_send_decision_witness :
    (successful_activation stC1 cmdsC1).1 =
      Except.ok
        (if spec_should_send (pending_at_decision stC1 reC1 updW)
            updW.server_cmds.replaying
            (!otC1.pending_queries.isEmpty && List.isEmpty ([] : List QueryResult))
            (updW.server_cmds.commands.isEmpty && activation_has_only_eviction stC1)
            (!List.isEmpty ([] : List QueryResult))
         then
           some ⟨otC1.info.task_token,
             ActivationAction.WftComplete updW.server_cmds.commands []
               reC1.oracle.must_heartbeat⟩
         else none) :=
  C1_send_decision stC1 reC1 otC1 cmdsC1 [] cmdsC1 updW rfl rfl rfl rfl rfl rfl

end SdkCore
